import Mathlib

/-!
Verification of the `cuba` bridging core of the `integrators` crate
(`src/cuba/mod.rs`), as a shallow embedding in Lean 4.

The embedding conventions:

* The platform real type `Real` (an alias of `f64` in the crate) is carried
  by `ℚ`.  The bridging layer under verification performs no arithmetic on
  real values — it only moves them between raw buffers and structured
  values — so any carrier with decidable equality is faithful for the
  structural properties proved here.
* `c_int` and `c_longlong` are carried by `Int`.
* Raw pointers to contiguous buffers are carried by functions `Nat → ℚ`
  (the memory beyond a pointer); `slice::from_raw_parts(p, len)` becomes
  the list of the first `len` cells of such a memory.
* A Rust value that may panic is carried by `Except Panic`; catching a
  panic (`catch_unwind`) is eliminating that `Except`.
* Rust iterators are carried by explicit state passing: `next` consumes a
  state and returns an optional item together with the successor state.

Definitions whose Rust source is not part of `src/cuba/mod.rs` (the
`LandingPad` from `super::ffi`, the `IntegrandInput`/`IntegrandOutput`
traits from `super::traits`, and the per-algorithm drivers) are modelled
from the specification and say so in their doc comments.
-/

namespace Integrators

/-- Carrier for the crate's `Real` (`f64`).  The bridge moves reals around
without computing on them, so a decidable carrier is used. -/
abbrev Real := ℚ

/-- A captured Rust panic: the payload of an unwind that `catch_unwind`
intercepts.  Modelled as an opaque message. -/
inductive Panic where
  | panic (msg : String)
deriving DecidableEq, Repr

/-- Modelled from the spec: the `IntegrandInput` trait of `super::traits`
(not under `src/`).  "Must declare its required dimensionality (a fixed
positive integer, known per concrete type) and must construct itself from a
sequence of real numbers of exactly that length." -/
class IntegrandInput (A : Type) where
  input_size : Nat
  from_args : List Real → A

/-- Modelled from the spec: the `IntegrandOutput` trait of `super::traits`
(not under `src/`).  "Must declare its required component count (fixed
positive integer) and must write itself into a mutable sequence of real
numbers of exactly that length, overwriting all positions."  `into_args`
takes the current contents of the output buffer and returns the buffer
after the write. -/
class IntegrandOutput (B : Type) where
  output_size : Nat
  into_args : B → List Real → List Real

/-- Modelled from the spec: the `LandingPad` of `super::ffi` (not under
`src/`).  It owns the user closure; the closure's possible panic is carried
by `Except Panic`. -/
structure LandingPad (A B : Type) where
  call : A → Except Panic B

/-- Modelled from the spec: `LandingPad::try_call` (in `super::ffi`, not
under `src/`): reconstruct the structured input from the raw view,
invoke the owned closure catching any panic, write the structured output
through the `IntegrandOutput` contract, and report the outcome as a value
— success with the written buffer, or the caught panic. -/
def LandingPad.try_call {A B : Type} [IntegrandInput A] [IntegrandOutput B]
    (lp : LandingPad A B) (args : List Real) (output : List Real) :
    Except Panic (List Real) :=
  match lp.call (IntegrandInput.from_args args) with
  | .ok b => .ok (IntegrandOutput.into_args b output)
  | .error p => .error p

/-- `slice::from_raw_parts(p, len)`: the read view of the first `len`
cells of the memory behind `p`. -/
def from_raw_parts (p : Nat → Real) (len : Nat) : List Real :=
  (List.range len).map p

/-- The foreign callback adapter `cuba_integrand` of `src/cuba/mod.rs`:
recover the landing pad from the user-data, build the raw views of the
advertised lengths, delegate to `try_call`, and translate the outcome to
the foreign status code (`0` on success, `-999` on failure).  The returned
pair is (status code, contents of the output buffer when the call
returns). -/
def cuba_integrand {A B : Type} [IntegrandInput A] [IntegrandOutput B]
    (ndim : Nat) (x : Nat → Real) (ncomp : Nat) (f : Nat → Real)
    (userdata : LandingPad A B) : Int × List Real :=
  let lp := userdata
  let args := from_raw_parts x ndim
  let output := from_raw_parts f ncomp
  match lp.try_call args output with
  | .ok written => (0, written)
  | .error _ => (-999, output)

/-- `CubaIntegrationResult` of `src/cuba/mod.rs`: one component's
statistics. -/
structure CubaIntegrationResult where
  value : Real
  error : Real
  prob : Real
deriving DecidableEq, Repr

/-- `CubaIntegrationResults` of `src/cuba/mod.rs`: the full outcome of one
integration call. -/
structure CubaIntegrationResults where
  nregions : Option Int
  neval : Int
  results : List CubaIntegrationResult
deriving DecidableEq, Repr

/-- `CubaError` of `src/cuba/mod.rs`. -/
inductive CubaError where
  | BadDim (name : String) (ndim : Nat)
  | BadComp (name : String) (ncomp : Nat)
  | DidNotConverge (results : CubaIntegrationResults)
deriving DecidableEq, Repr

/-- The `fmt::Display` implementation for `CubaError` in
`src/cuba/mod.rs`, with `write!` rendered as string concatenation. -/
def CubaError.display : CubaError → String
  | .BadDim name ndim =>
      "invalid number of dimensions for algorithm " ++ name ++ ": "
        ++ toString ndim
  | .BadComp name ncomp =>
      "invalid number of outputs for algorithm " ++ name ++ ": "
        ++ toString ncomp
  | .DidNotConverge _ => "integral did not converge"

/-- `IntegrationResult` of the top-level module (re-exported generic
two-field result). -/
structure IntegrationResult where
  value : Real
  error : Real
deriving DecidableEq, Repr

/-- `CubaResultsIter` of `src/cuba/mod.rs`: the state of a
`vec::IntoIter<CubaIntegrationResult>`. -/
structure CubaResultsIter where
  iter : List CubaIntegrationResult
deriving DecidableEq, Repr

/-- `Iterator::next` for `CubaResultsIter` (`src/cuba/mod.rs`): pop the
next underlying result, keep its `value` and `error`, drop `prob`.  State
passing replaces `&mut self`. -/
def CubaResultsIter.next : CubaResultsIter → Option (IntegrationResult × CubaResultsIter)
  | ⟨[]⟩ => none
  | ⟨r :: rest⟩ => some (⟨r.value, r.error⟩, ⟨rest⟩)

/-- `From<Vec<CubaIntegrationResult>> for CubaResultsIter`
(`src/cuba/mod.rs`). -/
def CubaResultsIter.ofVec (v : List CubaIntegrationResult) : CubaResultsIter :=
  ⟨v⟩

/-- `IntegrationResults::results` for `CubaIntegrationResults`
(`src/cuba/mod.rs`): hand the `results` vector to the iterator. -/
def IntegrationResults.results (self : CubaIntegrationResults) : CubaResultsIter :=
  CubaResultsIter.ofVec self.results

/-- Run the iterator to exhaustion through `next`: the sequence of items
it yields, together with its final state. -/
def CubaResultsIter.drain (it : CubaResultsIter) : List IntegrationResult × CubaResultsIter :=
  match h : it.next with
  | none => ([], it)
  | some (r, it2) =>
      have : it2.iter.length < it.iter.length := by
        rcases it with ⟨l⟩
        cases l with
        | nil => simp [CubaResultsIter.next] at h
        | cons a t =>
            simp only [CubaResultsIter.next, Option.some.injEq, Prod.mk.injEq] at h
            rcases h with ⟨-, h2⟩
            subst h2
            simp
      let p := it2.drain
      (r :: p.1, p.2)
termination_by it.iter.length

/-- Modelled from the spec: the bounds a per-algorithm driver (cuhre.rs,
suave.rs, vegas.rs — not under `src/`) supports, together with the
algorithm's name as carried in `BadDim`/`BadComp`. -/
structure Algorithm where
  name : String
  max_dim : Nat
  max_comp : Nat
deriving DecidableEq, Repr

/-- Modelled from the spec: the driver-facing setup check (§4.3, §7) of the
per-algorithm drivers, which are not under `src/`.  "Verify the
IntegrandInput's declared dimensionality and IntegrandOutput's declared
component count are within the bounds the chosen algorithm supports,
producing `BadDim`/`BadComp` otherwise"; "detected before the foreign call
begins ... surfaced immediately, no foreign call is attempted."  The
second component counts the foreign calls made. -/
def driver_setup (alg : Algorithm) (ndim ncomp : Nat) :
    Except CubaError Unit × Nat :=
  if ndim = 0 ∨ alg.max_dim < ndim then
    (.error (.BadDim alg.name ndim), 0)
  else if ncomp = 0 ∨ alg.max_comp < ncomp then
    (.error (.BadComp alg.name ncomp), 0)
  else
    (.ok (), 1)

/-- Modelled from the spec: the result parsing and convergence check
(§4.4) performed by the drivers after the foreign call returns; the
drivers are not under `src/`.  Parse one value/error/prob triple per
component plus the scalar metadata into a `CubaIntegrationResults`; "if
converged, return the results directly; if not, wrap them in
`CubaError::DidNotConverge`". -/
def parse_results (nregions : Option Int) (neval : Int)
    (buf : List (Real × Real × Real)) (converged : Bool) :
    Except CubaError CubaIntegrationResults :=
  let r : CubaIntegrationResults :=
    ⟨nregions, neval, buf.map fun t => ⟨t.1, t.2.1, t.2.2⟩⟩
  if converged then .ok r else .error (.DidNotConverge r)

/-- Modelled from the spec: the scalar implementation of the
`IntegrandInput` contract (a one-dimensional integrand consuming a single
real), not under `src/`: dimensionality 1, constructed from the first
element of the raw view. -/
instance : IntegrandInput Real where
  input_size := 1
  from_args args := args.headD 0

/-- Modelled from the spec: the pair implementation of the
`IntegrandInput` contract (a two-dimensional integrand), not under
`src/`: dimensionality 2, constructed from the first two elements of the
raw view. -/
instance : IntegrandInput (Real × Real) where
  input_size := 2
  from_args args := (args.headD 0, (args.drop 1).headD 0)

/-- Modelled from the spec: converting a structured scalar input to its
raw sequence of declared length (the direction used by the round-trip
law of §8). -/
def realToArgs (v : Real) : List Real := [v]

/-- Modelled from the spec: converting a structured pair input to its raw
sequence of declared length. -/
def pairToArgs (v : Real × Real) : List Real := [v.1, v.2]

/-- Modelled from the spec: the scalar implementation of the
`IntegrandOutput` contract (component count 1), not under `src/`: write
the single component into position 0 of the output buffer. -/
instance : IntegrandOutput Real where
  output_size := 1
  into_args v buf := buf.set 0 v

/-- Modelled from the spec: the pair implementation of the
`IntegrandOutput` contract (component count 2), not under `src/`: write
the two components into positions 0 and 1 of the output buffer. -/
instance : IntegrandOutput (Real × Real) where
  output_size := 2
  into_args v buf := (buf.set 0 v.1).set 1 v.2

/-- C1: every invocation of the foreign callback adapter `cuba_integrand`
returns status `0` exactly when the landing pad's evaluation succeeds and
`-999` exactly when it fails; no status other than `0` or `-999` is ever
produced by this layer. -/
theorem c1_adapter_status_codes {A B : Type} [IntegrandInput A] [IntegrandOutput B]
    (lp : LandingPad A B) (ndim ncomp : Nat) (x f : Nat → Real) :
    let s := cuba_integrand ndim x ncomp f lp
    (s.1 = 0 ∨ s.1 = -999) ∧
    (s.1 = 0 ↔ ∃ w, lp.try_call (from_raw_parts x ndim) (from_raw_parts f ncomp) = .ok w) ∧
    (s.1 = -999 ↔ ∃ p, lp.try_call (from_raw_parts x ndim) (from_raw_parts f ncomp) = .error p) := by
  simp only [cuba_integrand]
  cases h : lp.try_call (from_raw_parts x ndim) (from_raw_parts f ncomp) with
  | ok w => simp
  | error p => simp

/-- C2: a panic raised inside the user closure never crosses the callback
boundary: when the closure panics on the reconstructed input, the adapter
still returns a plain status-code pair, with status `-999`; and for any
closure whatsoever the adapter's status is one of the plain codes `0` or
`-999` — the failure is a caught value, never an unwind. -/
theorem c2_panic_contained {A B : Type} [IntegrandInput A] [IntegrandOutput B]
    (lp : LandingPad A B) (ndim ncomp : Nat) (x f : Nat → Real) (p : Panic)
    (hpanic : lp.call (IntegrandInput.from_args (from_raw_parts x ndim)) = .error p) :
    cuba_integrand ndim x ncomp f lp = (-999, from_raw_parts f ncomp) ∧
    ∀ lp2 : LandingPad A B,
      (cuba_integrand ndim x ncomp f lp2).1 = 0 ∨
      (cuba_integrand ndim x ncomp f lp2).1 = -999 := by
  constructor
  · simp [cuba_integrand, LandingPad.try_call, hpanic]
  · intro lp2
    simp only [cuba_integrand, LandingPad.try_call]
    cases lp2.call (IntegrandInput.from_args (from_raw_parts x ndim)) with
    | ok b => simp
    | error q => simp

/-- Witness for C2 at a concrete panicking closure. -/
theorem c2_panic_contained_witness :
    (LandingPad.mk (fun _ : Real => (Except.error (Panic.panic "boom") : Except Panic Real))).call
        (IntegrandInput.from_args (from_raw_parts (fun _ => (0 : Real)) 1))
      = .error (Panic.panic "boom") ∧
    cuba_integrand 1 (fun _ => (0 : Real)) 1 (fun _ => (0 : Real))
        (LandingPad.mk (fun _ : Real => (Except.error (Panic.panic "boom") : Except Panic Real)))
      = (-999, from_raw_parts (fun _ => (0 : Real)) 1) := by
  refine ⟨rfl, ?_⟩
  exact (c2_panic_contained
    (LandingPad.mk (fun _ : Real => (Except.error (Panic.panic "boom") : Except Panic Real)))
    1 1 (fun _ => (0 : Real)) (fun _ => (0 : Real)) (Panic.panic "boom") rfl).1

/-- C3: for every completed foreign call, the convergence flag alone
decides the wrapping: with the flag set the parsed results are returned
directly, with it clear the very same results are wrapped in
`CubaError.DidNotConverge` — identical in content, partial statistics
never discarded. -/
theorem c3_convergence_wrapping (nregions : Option Int) (neval : Int)
    (buf : List (Real × Real × Real)) :
    ∃ r : CubaIntegrationResults,
      parse_results nregions neval buf true = .ok r ∧
      parse_results nregions neval buf false = .error (.DidNotConverge r) := by
  exact ⟨_, rfl, rfl⟩

/-- C9: the `Display` rendering of `CubaError` carries the algorithm name
and the attempted count for `BadDim` and `BadComp`, while
`DidNotConverge` renders a fixed message independent of the carried
partial statistics. -/
theorem c9_display_rendering (name : String) (ndim ncomp : Nat)
    (r r' : CubaIntegrationResults) :
    CubaError.display (.BadDim name ndim)
        = "invalid number of dimensions for algorithm " ++ name ++ ": " ++ toString ndim ∧
    CubaError.display (.BadComp name ncomp)
        = "invalid number of outputs for algorithm " ++ name ++ ": " ++ toString ncomp ∧
    CubaError.display (.DidNotConverge r) = "integral did not converge" ∧
    CubaError.display (.DidNotConverge r) = CubaError.display (.DidNotConverge r') := by
  exact ⟨rfl, rfl, rfl, rfl⟩

/-- Draining an iterator built over a vector yields one simplified pair
per underlying result, in order, and ends in the empty state. -/
theorem CubaResultsIter.drain_mk (l : List CubaIntegrationResult) :
    CubaResultsIter.drain ⟨l⟩
      = (l.map fun r => ⟨r.value, r.error⟩, (⟨[]⟩ : CubaResultsIter)) := by
  induction l with
  | nil => rw [CubaResultsIter.drain]; rfl
  | cons a t ih =>
      rw [CubaResultsIter.drain]
      simp only [CubaResultsIter.next, List.map_cons]
      rw [ih]

/-- C4: the result iteration adapter over a `CubaIntegrationResults` with
`n` components yields exactly `n` simplified (value, error) pairs, one per
component in order, each carrying the component's `value` and `error`
unchanged with `prob` and the metadata discarded; after the `n`-th item
the sequence is exhausted and yields nothing ever again. -/
theorem c4_iter_yields_all (nr : Option Int) (ne : Int)
    (rs : List CubaIntegrationResult) :
    ((IntegrationResults.results ⟨nr, ne, rs⟩).drain).1
        = rs.map (fun r => ⟨r.value, r.error⟩) ∧
    ((IntegrationResults.results ⟨nr, ne, rs⟩).drain).1.length = rs.length ∧
    ((IntegrationResults.results ⟨nr, ne, rs⟩).drain).2.next = none ∧
    ((IntegrationResults.results ⟨nr, ne, rs⟩).drain).2.drain
        = ([], ((IntegrationResults.results ⟨nr, ne, rs⟩).drain).2) := by
  have hd : (IntegrationResults.results ⟨nr, ne, rs⟩).drain
      = (rs.map fun r => ⟨r.value, r.error⟩, (⟨[]⟩ : CubaResultsIter)) :=
    CubaResultsIter.drain_mk rs
  rw [hd]
  exact ⟨rfl, by simp, rfl, CubaResultsIter.drain_mk []⟩

/-- C5: on every invocation the foreign callback adapter builds a
read-only input view of exactly `ndim` elements and an output view of
exactly `ncomp` elements over the raw buffers, recovers the landing pad
from the user-data, and delegates the evaluation to it with those views;
in particular the adapter reads nothing of the input buffer beyond the
advertised `ndim` cells. -/
theorem c5_views_and_delegation {A B : Type} [IntegrandInput A] [IntegrandOutput B]
    (lp : LandingPad A B) (ndim ncomp : Nat) (x x' f : Nat → Real)
    (hxx : ∀ i, i < ndim → x i = x' i) :
    (from_raw_parts x ndim).length = ndim ∧
    (from_raw_parts f ncomp).length = ncomp ∧
    cuba_integrand ndim x ncomp f lp =
      (match lp.try_call (from_raw_parts x ndim) (from_raw_parts f ncomp) with
       | .ok w => ((0 : Int), w)
       | .error _ => ((-999 : Int), from_raw_parts f ncomp)) ∧
    cuba_integrand ndim x ncomp f lp = cuba_integrand ndim x' ncomp f lp := by
  have hview : from_raw_parts x ndim = from_raw_parts x' ndim := by
    unfold from_raw_parts
    exact List.map_congr_left fun i hi => hxx i (List.mem_range.mp hi)
  refine ⟨by simp [from_raw_parts], by simp [from_raw_parts], rfl, ?_⟩
  simp only [cuba_integrand, hview]

/-- Witness for C5 at concrete buffers: two input memories agreeing on
the single advertised cell produce the same adapter outcome. -/
theorem c5_views_and_delegation_witness :
    (∀ i, i < 1 →
      (fun j : Nat => (j : Real)) i = (fun j : Nat => if j = 0 then (0 : Real) else 7) i) ∧
    cuba_integrand 1 (fun j : Nat => (j : Real)) 1 (fun _ => (0 : Real))
        (LandingPad.mk (fun v : Real => (Except.ok v : Except Panic Real)))
      = cuba_integrand 1 (fun j : Nat => if j = 0 then (0 : Real) else 7) 1 (fun _ => (0 : Real))
        (LandingPad.mk (fun v : Real => (Except.ok v : Except Panic Real))) := by
  have hxx : ∀ i, i < 1 →
      (fun j : Nat => (j : Real)) i = (fun j : Nat => if j = 0 then (0 : Real) else 7) i := by
    intro i hi
    have h0 : i = 0 := Nat.lt_one_iff.mp hi
    subst h0
    simp
  exact ⟨hxx,
    (c5_views_and_delegation
      (LandingPad.mk (fun v : Real => (Except.ok v : Except Panic Real)))
      1 1 (fun j : Nat => (j : Real)) (fun j : Nat => if j = 0 then (0 : Real) else 7)
      (fun _ => (0 : Real)) hxx).2.2.2⟩

/-- C6: when the declared dimensionality is 0 or exceeds the algorithm's
maximum, the driver-facing setup returns `BadDim` carrying the
algorithm's name and the attempted dimension and makes no foreign call;
analogously an unsupported component count yields `BadComp` with no
foreign call. -/
theorem c6_bad_config_no_foreign_call (alg : Algorithm) (ndim ncomp : Nat)
    (hdim : ndim = 0 ∨ alg.max_dim < ndim) :
    driver_setup alg ndim ncomp = (.error (.BadDim alg.name ndim), 0) ∧
    ∀ ndim2 ncomp2, 0 < ndim2 → ndim2 ≤ alg.max_dim →
      (ncomp2 = 0 ∨ alg.max_comp < ncomp2) →
      driver_setup alg ndim2 ncomp2 = (.error (.BadComp alg.name ncomp2), 0) := by
  constructor
  · simp [driver_setup, hdim]
  · intro ndim2 ncomp2 hpos hle hcomp
    have hnot : ¬(ndim2 = 0 ∨ alg.max_dim < ndim2) := by omega
    simp [driver_setup, hnot, hcomp]

/-- Witness for C6 at a concrete algorithm and attempted dimension 0. -/
theorem c6_bad_config_no_foreign_call_witness :
    ((0 : Nat) = 0 ∨ (10 : Nat) < 0) ∧
    driver_setup ⟨"cuhre", 10, 4⟩ 0 1 = (.error (.BadDim "cuhre" 0), 0) ∧
    driver_setup ⟨"cuhre", 10, 4⟩ 2 0 = (.error (.BadComp "cuhre" 0), 0) := by
  have h := c6_bad_config_no_foreign_call ⟨"cuhre", 10, 4⟩ 0 1 (Or.inl rfl)
  exact ⟨Or.inl rfl, h.1, h.2 2 0 (by decide) (by decide) (Or.inl rfl)⟩

/-- C7: converting a valid structured input to its raw sequence of the
declared length and reconstructing it through the `IntegrandInput`
contract yields the original value, for each modelled contract
implementation (scalar and pair). -/
theorem c7_input_roundtrip (v : Real) (w : Real × Real) :
    (realToArgs v).length = @IntegrandInput.input_size Real _ ∧
    IntegrandInput.from_args (realToArgs v) = v ∧
    (pairToArgs w).length = @IntegrandInput.input_size (Real × Real) _ ∧
    IntegrandInput.from_args (pairToArgs w) = w := by
  exact ⟨rfl, rfl, rfl, rfl⟩

/-- C8: writing a structured output into a raw buffer of the declared
component count through the `IntegrandOutput` contract overwrites every
position: the written buffer is fully determined by the output value,
independent of the buffer's previous contents, for each modelled contract
implementation (scalar and pair). -/
theorem c8_output_overwrites_all (wv : Real) (wp : Real × Real)
    (b1 b1' b2 b2' : List Real)
    (h1 : b1.length = 1) (h1' : b1'.length = 1)
    (h2 : b2.length = 2) (h2' : b2'.length = 2) :
    IntegrandOutput.into_args wv b1 = [wv] ∧
    IntegrandOutput.into_args wv b1 = IntegrandOutput.into_args wv b1' ∧
    IntegrandOutput.into_args wp b2 = [wp.1, wp.2] ∧
    IntegrandOutput.into_args wp b2 = IntegrandOutput.into_args wp b2' := by
  obtain ⟨a1, rfl⟩ := List.length_eq_one.mp h1
  obtain ⟨a1', rfl⟩ := List.length_eq_one.mp h1'
  obtain ⟨a2, b2v, rfl⟩ := List.length_eq_two.mp h2
  obtain ⟨a2', b2v', rfl⟩ := List.length_eq_two.mp h2'
  exact ⟨rfl, rfl, rfl, rfl⟩

/-- Witness for C8 at concrete buffers with stale contents. -/
theorem c8_output_overwrites_all_witness :
    (([1] : List Real).length = 1 ∧ ([2] : List Real).length = 1 ∧
     ([0, 0] : List Real).length = 2 ∧ ([9, 9] : List Real).length = 2) ∧
    IntegrandOutput.into_args (5 : Real) [1] = [5] ∧
    IntegrandOutput.into_args ((3 : Real), (4 : Real)) [0, 0] = [3, 4] := by
  have h := c8_output_overwrites_all 5 (3, 4) [1] [2] [0, 0] [9, 9] rfl rfl rfl rfl
  exact ⟨⟨rfl, rfl, rfl, rfl⟩, h.1, h.2.2.1⟩

/-- C10: the sequence produced by the result iteration adapter depends
only on the `results` field: equal `results` vectors give identical
iterators and identical drained sequences, whatever `nregions` and
`neval` are. -/
theorem c10_iter_depends_only_on_results (r1 r2 : CubaIntegrationResults)
    (h : r1.results = r2.results) :
    IntegrationResults.results r1 = IntegrationResults.results r2 ∧
    (IntegrationResults.results r1).drain = (IntegrationResults.results r2).drain := by
  have he : IntegrationResults.results r1 = IntegrationResults.results r2 := by
    simp [IntegrationResults.results, CubaResultsIter.ofVec, h]
  exact ⟨he, by rw [he]⟩

/-- Witness for C10 at two concrete values with equal `results` but
different `nregions` and `neval`. -/
theorem c10_iter_depends_only_on_results_witness :
    (CubaIntegrationResults.mk (some 3) 100 [⟨1, 1 / 100, 1 / 2⟩]).results
      = (CubaIntegrationResults.mk none 7 [⟨1, 1 / 100, 1 / 2⟩]).results ∧
    IntegrationResults.results (CubaIntegrationResults.mk (some 3) 100 [⟨1, 1 / 100, 1 / 2⟩])
      = IntegrationResults.results (CubaIntegrationResults.mk none 7 [⟨1, 1 / 100, 1 / 2⟩]) := by
  exact ⟨rfl,
    (c10_iter_depends_only_on_results
      (CubaIntegrationResults.mk (some 3) 100 [⟨1, 1 / 100, 1 / 2⟩])
      (CubaIntegrationResults.mk none 7 [⟨1, 1 / 100, 1 / 2⟩]) rfl).1⟩

end Integrators
